import Mathlib

/-!
# Verification of the SRM crawler / knowledge-index backend

Shallow embedding of the core subsystem of `main-improved.py` (bounded
recursive crawler, categorized knowledge database, instant query path) and of
`app/services/faq_service.py` (FAQ fuzzy matching), together with proofs of
the specification's testable properties.

Conventions of the embedding:
* Python strings are Lean `String`s; Python `needle in hay` is `pyIn`.
* Python floats are modelled as exact rationals (`ℚ`).
* The network and the HTML parser (`requests`, `BeautifulSoup`) are external
  collaborators: a fetch is a value of type `String → Except String Page`
  where `Page` records the parsed-document data the code reads from the soup.
* Mutation of module-level globals (`KNOWLEDGE_DATABASE`, `scraped_data`) is
  modelled by explicit state passing.
-/

/- Batteries marks rational arithmetic `@[irreducible]`, which blocks
`decide` on concrete score computations; restore the default reducibility
so that concrete rationals evaluate. -/
attribute [local semireducible] Rat.add Rat.mul Rat.inv Rat.sub
  Rat.ofScientific

namespace Mist

/-! ## Python string primitives -/

/-- Does `needle` occur at the head of `hay`? -/
def subAt : List Char → List Char → Bool
  | [], _ => true
  | _ :: _, [] => false
  | n :: ns, h :: hs => n == h && subAt ns hs

/-- Substring occurrence over char lists. -/
def hasSub (needle : List Char) : List Char → Bool
  | [] => subAt needle []
  | h :: hs => subAt needle (h :: hs) || hasSub needle hs

/-- Python `needle in hay` on strings (substring containment). -/
def pyIn (needle hay : String) : Bool := hasSub needle.toList hay.toList

/-- Python's whitespace characters (the ASCII ones; all strings this
development evaluates are ASCII). -/
def pySpaceChar (c : Char) : Bool :=
  c = ' ' || c = '\t' || c = '\n' || c = '\r' || c = '\x0b' || c = '\x0c'

/-- Python `str.strip()`: drop leading and trailing whitespace. -/
def pyStrip (s : String) : String :=
  String.mk (((s.data.dropWhile pySpaceChar).reverse.dropWhile
    pySpaceChar).reverse)

/-- ASCII lower-casing of one character (`str.lower` on the ASCII regime). -/
def charLower (c : Char) : Char :=
  if 65 ≤ c.toNat && c.toNat ≤ 90 then Char.ofNat (c.toNat + 32) else c

/-- Python `str.lower()` (ASCII regime). -/
def pyLower (s : String) : String := String.mk (s.data.map charLower)

/-- Python `sep.join(pieces)`. -/
def pyJoin (sep : String) : List String → String
  | [] => ""
  | [x] => x
  | x :: xs => x ++ sep ++ pyJoin sep xs

def pySplitAux : List Char → List Char → List String
  | [], cur => if cur.isEmpty then [] else [String.mk cur.reverse]
  | c :: rest, cur =>
    if pySpaceChar c then
      if cur.isEmpty then pySplitAux rest []
      else String.mk cur.reverse :: pySplitAux rest []
    else pySplitAux rest (c :: cur)

/-- Python `str.split()`: split on whitespace runs, dropping empty pieces. -/
def pySplit (s : String) : List String := pySplitAux s.data []

/-- Python `' '.join(text.split())`: whitespace normalization. -/
def normWs (s : String) : String := pyJoin " " (pySplit s)

/-- Python `list(dict.fromkeys(l))`: deduplicate keeping first occurrences. -/
def pyDedupFirst (l : List String) : List String :=
  l.foldl (fun acc x => if x ∈ acc then acc else acc ++ [x]) []

/-- Python `any(keyword in hay for keyword in kws)`. -/
def anyKw (kws : List String) (hay : String) : Bool :=
  kws.any (fun k => pyIn k hay)

/-! ## Data model: page records (the crawl snapshot) -/

/-- Fetch status of one `scrape_website` record (`"success"` / `"error"`). -/
inductive PStatus where
  | success
  | error
deriving DecidableEq, Repr

/-- One entry of `content["main_content"]`: `{"type": tag.name, "text": ...}`. -/
structure ContentItem where
  tagName : String
  text : String
deriving DecidableEq, Repr

/-- The `content` dict of one scraped page (absent keys are empty lists). -/
structure PageContent where
  title : String
  main_content : List ContentItem
  navigation : List (String × String)
  images : List (String × String)
  admission_info : List String
  specific_admission : List String
  course_info : List String
  research_info : List String
deriving DecidableEq, Repr

/-- An all-empty `content` dict (what an error record carries). -/
def PageContent.empty : PageContent :=
  ⟨"", [], [], [], [], [], [], []⟩

/-- One record produced by `scrape_website`: a page and its scraped
sub-pages.  An error record has an all-empty content and no sub-pages
(the Python error dict simply lacks those keys; reads default to empty). -/
inductive PageRecord where
  | mk (source url : String) (depth : Nat) (status : PStatus)
      (content : PageContent) (sub_pages : List PageRecord)
      (error : Option String)

def PageRecord.source : PageRecord → String
  | .mk s _ _ _ _ _ _ => s

def PageRecord.url : PageRecord → String
  | .mk _ u _ _ _ _ _ => u

def PageRecord.depth : PageRecord → Nat
  | .mk _ _ d _ _ _ _ => d

def PageRecord.status : PageRecord → PStatus
  | .mk _ _ _ st _ _ _ => st

def PageRecord.content : PageRecord → PageContent
  | .mk _ _ _ _ c _ _ => c

def PageRecord.sub_pages : PageRecord → List PageRecord
  | .mk _ _ _ _ _ sp _ => sp

def PageRecord.error : PageRecord → Option String
  | .mk _ _ _ _ _ _ e => e

/-! ## Data model: the knowledge database -/

/-- The closed category enumeration of `KNOWLEDGE_DATABASE` (keys in dict
insertion order: admissions, courses, research, events, facilities, general). -/
inductive KCat where
  | admissions
  | courses
  | research
  | events
  | facilities
  | general
deriving DecidableEq, Repr

/-- The priority order in which `build_knowledge_database` tests categories
(the `if`/`elif` chain), without the fall-through `general`. -/
def categoryPriority : List KCat :=
  [.admissions, .courses, .research, .events, .facilities]

/-- The bucketed knowledge database (`KNOWLEDGE_DATABASE`). -/
structure KnowledgeDB where
  admissions : List String
  courses : List String
  research : List String
  events : List String
  facilities : List String
  general : List String
deriving DecidableEq, Repr

def KnowledgeDB.get (db : KnowledgeDB) : KCat → List String
  | .admissions => db.admissions
  | .courses => db.courses
  | .research => db.research
  | .events => db.events
  | .facilities => db.facilities
  | .general => db.general

def KnowledgeDB.set (db : KnowledgeDB) : KCat → List String → KnowledgeDB
  | .admissions, l => { db with admissions := l }
  | .courses, l => { db with courses := l }
  | .research, l => { db with research := l }
  | .events, l => { db with events := l }
  | .facilities, l => { db with facilities := l }
  | .general, l => { db with general := l }

/-- The database with every bucket empty. -/
def emptyDB : KnowledgeDB := ⟨[], [], [], [], [], []⟩

/-- `KNOWLEDGE_DATABASE[cat].append(text)` guarded by
`if text not in KNOWLEDGE_DATABASE[cat]` (exact-string dedup). -/
def KnowledgeDB.insertNew (db : KnowledgeDB) (c : KCat) (t : String) : KnowledgeDB :=
  if t ∈ db.get c then db else db.set c (db.get c ++ [t])

/-! ## The categorizer keyword table (lines 1076–1103 of `main-improved.py`) -/

def admissionsKeywords : List String :=
  ["admission", "apply", "deadline", "form", "requirement", "enrollment",
   "entrance", "exam", "cutoff", "merit", "eligibility", "procedure",
   "process", "date", "last date", "application", "2025", "2024", "btech",
   "mtech", "phd", "engineering", "medical", "management"]

def coursesKeywords : List String :=
  ["course", "program", "curriculum", "specialization", "degree",
   "engineering", "btech", "mtech", "phd", "branch", "department", "faculty",
   "specialization", "syllabus", "semester"]

def researchKeywords : List String :=
  ["research", "innovation", "publication", "patent", "laboratory",
   "project", "faculty", "publication", "conference", "journal", "paper",
   "experiment", "study"]

def eventsKeywords : List String :=
  ["event", "festival", "symposium", "workshop", "conference", "activity",
   "celebration", "competition", "seminar", "webinar"]

def facilitiesKeywords : List String :=
  ["facility", "infrastructure", "laboratory", "library", "hostel",
   "canteen", "gym", "sports", "auditorium", "classroom", "equipment"]

/-- Keyword list of one category of the `if`/`elif` chain. -/
def keywordsOf : KCat → List String
  | .admissions => admissionsKeywords
  | .courses => coursesKeywords
  | .research => researchKeywords
  | .events => eventsKeywords
  | .facilities => facilitiesKeywords
  | .general => []

/-- Does a (lower-cased) fragment text match a category's keyword list? -/
def catMatches (c : KCat) (text : String) : Bool :=
  anyKw (keywordsOf c) (pyLower text)

/-- The categorizer: the `if`/`elif` chain of `build_knowledge_database`
applied to a fragment text (the code lower-cases the text once and tests
substring containment of each keyword). -/
def categorize (text : String) : KCat :=
  let tl := (pyLower text)
  if anyKw admissionsKeywords tl then .admissions
  else if anyKw coursesKeywords tl then .courses
  else if anyKw researchKeywords tl then .research
  else if anyKw eventsKeywords tl then .events
  else if anyKw facilitiesKeywords tl then .facilities
  else .general

/-! ## `build_knowledge_database` -/

/-- Processing of one `main_content` item: length filter 20..500 then
categorize-and-insert (lines 1067–1103). -/
def processMainItem (db : KnowledgeDB) (item : ContentItem) : KnowledgeDB :=
  let text := (pyStrip item.text)
  if text.length < 20 || 500 < text.length then db
  else db.insertNew (categorize text) text

/-- Processing of one specific content list (`admission_info`, `course_info`,
`research_info`, `specific_admission`): first 10 items, length filter
`20 < len < 500`, all inserted into the admissions bucket (lines 1106–1111). -/
def processSpecificList (db : KnowledgeDB) (items : List String) : KnowledgeDB :=
  (items.take 10).foldl
    (fun d item =>
      if 20 < item.length && item.length < 500 then d.insertNew .admissions item
      else d)
    db

/-- The body of `process_content_recursive`, with the recursion expressed
structurally on the fuel `4 - depth`: the `depth > 3` guard of the source
makes the recursion depth-bounded, and with `fuel = 4 - depth` the two
stopping conditions coincide (`fuel = 0` exactly when `depth > 3` on the
recursion's reachable arguments). -/
def processAux : Nat → KnowledgeDB → PageRecord → Nat → KnowledgeDB
  | 0, db, _, _ => db
  | fuel + 1, db, rec, depth =>
    if 3 < depth then db
    else
      let c := rec.content
      let db1 := c.main_content.foldl processMainItem db
      let db2 := processSpecificList db1 c.admission_info
      let db3 := processSpecificList db2 c.course_info
      let db4 := processSpecificList db3 c.research_info
      let db5 := processSpecificList db4 c.specific_admission
      rec.sub_pages.foldl (fun d s => processAux fuel d s (depth + 1)) db5

/-- `process_content_recursive`: categorize one record's content and recurse
into its sub-pages; recursion stops at `depth > 3`. -/
def process_content_recursive (db : KnowledgeDB) (rec : PageRecord)
    (depth : Nat) : KnowledgeDB :=
  processAux (4 - depth) db rec depth

/-- The clear loop (lines 1051–1052): every bucket of the live database is
emptied in place before refilling starts. -/
def clearDatabase (_db : KnowledgeDB) : KnowledgeDB := emptyDB

/-- The fill loop (lines 1118–1120): process every snapshot record whose
status is `success`, mutating `db`. -/
def fillDatabase (db : KnowledgeDB) (snapshot : List PageRecord) : KnowledgeDB :=
  snapshot.foldl
    (fun d r => if r.status = .success then process_content_recursive d r 0 else d)
    db

/-- The truncation loop (lines 1123–1124): each bucket cut to 50 items. -/
def truncateBuckets (db : KnowledgeDB) : KnowledgeDB :=
  ⟨db.admissions.take 50, db.courses.take 50, db.research.take 50,
   db.events.take 50, db.facilities.take 50, db.general.take 50⟩

/-- `build_knowledge_database`, as a transformer of the global
`KNOWLEDGE_DATABASE` given the `scraped_data` snapshot.  Mirrors the source:
clear the live buckets, return early if the snapshot dict is empty, else
fill from the successful records and truncate each bucket to 50. -/
def build_knowledge_database (snapshot : List PageRecord)
    (db : KnowledgeDB) : KnowledgeDB :=
  let cleared := clearDatabase db
  if snapshot.isEmpty then cleared
  else truncateBuckets (fillDatabase cleared snapshot)

/-! ## `get_relevant_scraped_info` (the instant query path) -/

/-- Query-side admissions keyword list (line 1147; shorter than the build
list). -/
def queryAdmissionsKeywords : List String :=
  ["admission", "apply", "deadline", "form", "requirement", "enrollment",
   "entrance", "exam", "cutoff", "merit", "eligibility", "procedure",
   "process", "date", "last date", "application"]

def queryCoursesKeywords : List String :=
  ["course", "program", "engineering", "degree", "curriculum",
   "specialization", "btech", "mtech", "phd", "branch", "department",
   "faculty"]

def queryResearchKeywords : List String :=
  ["research", "innovation", "publication", "patent", "laboratory",
   "project", "faculty", "publication", "conference", "journal", "paper"]

def queryEventsKeywords : List String :=
  ["event", "festival", "symposium", "workshop", "conference", "activity",
   "celebration", "competition"]

def queryFacilitiesKeywords : List String :=
  ["facility", "infrastructure", "laboratory", "library", "hostel",
   "canteen", "gym", "sports", "auditorium", "classroom"]

/-- `search_categories` (lines 1145–1164): independent `if`s in fixed order;
if none matched, all categories in dict order. -/
def searchCategoriesFor (lowerMsg : String) : List KCat :=
  let cats :=
    (if anyKw queryAdmissionsKeywords lowerMsg then [KCat.admissions] else []) ++
    (if anyKw queryCoursesKeywords lowerMsg then [KCat.courses] else []) ++
    (if anyKw queryResearchKeywords lowerMsg then [KCat.research] else []) ++
    (if anyKw queryEventsKeywords lowerMsg then [KCat.events] else []) ++
    (if anyKw queryFacilitiesKeywords lowerMsg then [KCat.facilities] else [])
  if cats.isEmpty then
    [.admissions, .courses, .research, .events, .facilities, .general]
  else cats

/-- Inner collection loop over one bucket's first 10 items: keep an item if
it shares a token with the query, is not already collected; stop at 6. -/
def collectItems (tokens : List String) (items : List String)
    (acc : List String) : List String :=
  match items with
  | [] => acc
  | it :: rest =>
    if tokens.any (fun kw => pyIn kw (pyLower it)) && it ∉ acc then
      let acc1 := acc ++ [it]
      if 6 ≤ acc1.length then acc1 else collectItems tokens rest acc1
    else collectItems tokens rest acc

/-- Outer collection loop over the candidate categories (lines 1167–1177). -/
def collectCats (tokens : List String) (db : KnowledgeDB)
    (cats : List KCat) (acc : List String) : List String :=
  match cats with
  | [] => acc
  | c :: cs =>
    let acc1 := collectItems tokens ((db.get c).take 10) acc
    if 6 ≤ acc1.length then acc1 else collectCats tokens db cs acc1

/-- Fallback collection (lines 1180–1185): first 3 entries of each non-empty
candidate category, stopping at 6. -/
def fallbackCats (db : KnowledgeDB) (cats : List KCat)
    (acc : List String) : List String :=
  match cats with
  | [] => acc
  | c :: cs =>
    if (db.get c).isEmpty then fallbackCats db cs acc
    else
      let acc1 := acc ++ (db.get c).take 3
      if 6 ≤ acc1.length then acc1 else fallbackCats db cs acc1

/-- The hard-coded admission fallback answer (line 1192). -/
def admissionFallbackAnswer : String :=
  "**Latest SRM Admission Information**:\n\n• **2025 Admissions Open**: SRMJEEE 2025 applications are now open for B.Tech programs\n• **Application Deadline**: May 31, 2025 for Phase 1 admissions\n• **Entrance Exam**: SRMJEEE 2025 scheduled for April 2025\n• **Programs Available**: B.Tech in Computer Science, Mechanical, Civil, ECE, and more\n• **Eligibility**: 10+2 with 60% aggregate in PCM\n• **Application Fee**: ₹1,200 for general category students"

/-- The pure answer computation of `get_relevant_scraped_info` against a
fixed database (lines 1141–1194). -/
def instantAnswer (db : KnowledgeDB) (message : String) : String :=
  let lowerMsg := (pyLower message)
  let cats := searchCategoriesFor lowerMsg
  let tokens := pySplit lowerMsg
  let relevant := collectCats tokens db cats []
  let relevant :=
    if relevant.isEmpty && !cats.isEmpty then fallbackCats db cats []
    else relevant
  if !relevant.isEmpty then
    "**Instant Information from SRM Knowledge Database**:\n\n" ++
      pyJoin "\n\n" ((relevant.take 6).map (fun info => "• " ++ info))
  else if pyIn "admission" lowerMsg then admissionFallbackAnswer
  else ""

/-- `not any(KNOWLEDGE_DATABASE.values())`: every bucket is empty. -/
def dbAllEmpty (db : KnowledgeDB) : Bool :=
  db.admissions.isEmpty && db.courses.isEmpty && db.research.isEmpty &&
    db.events.isEmpty && db.facilities.isEmpty && db.general.isEmpty

/-- `get_relevant_scraped_info` including its effect on shared state: if
every bucket is empty it first runs `build_knowledge_database` against the
current `scraped_data` snapshot (line 1137–1139), then answers from the
(possibly rebuilt) database.  Returns (answer, database after the call). -/
def get_relevant_scraped_info (snapshot : List PageRecord) (message : String)
    (db : KnowledgeDB) : String × KnowledgeDB :=
  let db1 := if dbAllEmpty db then build_knowledge_database snapshot db else db
  (instantAnswer db1 message, db1)

/-! ## The FAQ service (`app/services/faq_service.py`)

`difflib.SequenceMatcher(None, a, b).ratio()` is stdlib collaborator code; we
embed its documented behaviour for the no-junk regime (autojunk only affects
strings of length ≥ 200, far beyond the concrete inputs used here):
`ratio = 2·M / (len a + len b)` where `M` is the total size of the matching
blocks found by repeatedly taking the longest matching block (earliest in
`a`, then earliest in `b`, among maximal ones) and recursing on both sides. -/

/-- Length of the common run of `a`/`b` starting at positions `i`/`j`,
staying below the bounds `ahi`/`bhi`. -/
def runLenAux (a b : List Char) (bhi : Nat) : Nat → Nat → Nat → Nat
  | 0, _, _ => 0
  | fuel + 1, i, j =>
    match a.get? i, b.get? j with
    | some x, some y =>
      if j < bhi ∧ x = y then 1 + runLenAux a b bhi fuel (i + 1) (j + 1)
      else 0
    | _, _ => 0

def runLen (a b : List Char) (ahi bhi : Nat) (i j : Nat) : Nat :=
  runLenAux a b bhi (ahi - i) i j

/-- `find_longest_match` on `a[alo:ahi]` × `b[blo:bhi]`: the block of maximal
size that starts earliest in `a`, then earliest in `b` (difflib's documented
contract; default `(alo, blo, 0)` when nothing matches). -/
def findLongestMatch (a b : List Char) (alo ahi blo bhi : Nat) :
    Nat × Nat × Nat :=
  (List.range' alo (ahi - alo)).foldl
    (fun best i =>
      (List.range' blo (bhi - blo)).foldl
        (fun best2 j =>
          let k := runLen a b ahi bhi i j
          if best2.2.2 < k then (i, j, k) else best2)
        best)
    (alo, blo, 0)

/-- Total size of all matching blocks (`get_matching_blocks` sum), with a
fuel argument dominating the recursion depth (any fuel above the `a`-range
width is enough, since each split removes at least one `a` position). -/
def matchTotal (a b : List Char) : Nat → Nat → Nat → Nat → Nat → Nat
  | 0, _, _, _, _ => 0
  | fuel + 1, alo, ahi, blo, bhi =>
    let t := findLongestMatch a b alo ahi blo bhi
    if t.2.2 = 0 then 0
    else
      matchTotal a b fuel alo t.1 blo t.2.1 + t.2.2 +
        matchTotal a b fuel (t.1 + t.2.2) ahi (t.2.1 + t.2.2) bhi

/-- `SequenceMatcher(None, sa, sb).ratio()` as an exact rational. -/
def sequenceSimilarity (sa sb : String) : ℚ :=
  let a := sa.toList
  let b := sb.toList
  let total := a.length + b.length
  if total = 0 then 1
  else (2 * (matchTotal a b (a.length + 1) 0 a.length 0 b.length) : ℚ) / (total : ℚ)

/-- Maximal runs of `[a-zA-Z0-9]` characters (`re.findall(r"[a-zA-Z0-9]+", s)`). -/
def alnumTokensAux : List Char → List Char → List String
  | [], cur => if cur.isEmpty then [] else [String.mk cur.reverse]
  | c :: rest, cur =>
    if c.isAlphanum then alnumTokensAux rest (c :: cur)
    else if cur.isEmpty then alnumTokensAux rest []
    else String.mk cur.reverse :: alnumTokensAux rest []

def alnumTokens (s : String) : List String := alnumTokensAux s.toList []

/-- `_extract_keywords`: up to 8 alphanumeric tokens of length > 2 from the
lower-cased query; fall back to the whole lower-cased query if none. -/
def extract_keywords (text : String) : List String :=
  let tokens := alnumTokens (pyLower text)
  let keywords := tokens.filter (fun t => 2 < t.length)
  if keywords.isEmpty then [(pyLower text)] else keywords.take 8

/-- One active FAQ row as the matcher reads it (`category` carries
`entry.category.value` when the enum column is non-null). -/
structure FaqEntry where
  question : String
  answer : String
  tags : List String
  category : Option String
deriving DecidableEq, Repr

/-- `_calculate_match_score` (lines 84–104 of `faq_service.py`).  Note the
source halves the answer similarity (`ratio() * 0.5`) before applying the
`0.2` weight. -/
def calculate_match_score (query : String) (keywords : List String)
    (e : FaqEntry) : ℚ :=
  let question := (pyLower e.question)
  let answer := (pyLower e.answer)
  let tags := pyLower (pyJoin " " e.tags)
  let questionSimilarity := sequenceSimilarity (pyLower query) question
  let answerSimilarity := sequenceSimilarity (pyLower query) answer * (0.5 : ℚ)
  let keywordHits : Nat :=
    (keywords.filter (fun kw => pyIn kw question || pyIn kw tags)).length
  let keywordScore : ℚ := min ((keywordHits : ℚ) / (max keywords.length 1 : ℚ)) 1
  let combined :=
    questionSimilarity * (0.6 : ℚ) + answerSimilarity * (0.2 : ℚ) +
      keywordScore * (0.2 : ℚ)
  let categoryBonus : ℚ :=
    match e.category with
    | some cv => if keywords.any (fun kw => pyIn cv kw) then (0.05 : ℚ) else 0
    | none => 0
  min (combined + categoryBonus) 1

/-- Modelled from the spec: the blended score the specification describes,
`0.6 × stringSimilarity(query, question) + 0.2 × stringSimilarity(query,
answer) + 0.2 × (keywordHits / totalKeywords)` plus the small fixed category
bonus, capped at 1.0.  Used only to compare against the source's
`calculate_match_score`. -/
def specMatchScore (query : String) (keywords : List String)
    (e : FaqEntry) : ℚ :=
  let question := (pyLower e.question)
  let answer := (pyLower e.answer)
  let tags := pyLower (pyJoin " " e.tags)
  let questionSimilarity := sequenceSimilarity (pyLower query) question
  let answerSimilarity := sequenceSimilarity (pyLower query) answer
  let keywordHits : Nat :=
    (keywords.filter (fun kw => pyIn kw question || pyIn kw tags)).length
  let keywordScore : ℚ := min ((keywordHits : ℚ) / (max keywords.length 1 : ℚ)) 1
  let combined :=
    questionSimilarity * (0.6 : ℚ) + answerSimilarity * (0.2 : ℚ) +
      keywordScore * (0.2 : ℚ)
  let categoryBonus : ℚ :=
    match e.category with
    | some cv => if keywords.any (fun kw => pyIn cv kw) then (0.05 : ℚ) else 0
    | none => 0
  min (combined + categoryBonus) 1

/-- The best-match fold of `find_best_match`: strict improvement keeps the
earliest entry among ties. -/
def bestMatchLoop (query : String) (keywords : List String) :
    List FaqEntry → Option (FaqEntry × ℚ) → Option (FaqEntry × ℚ)
  | [], best => best
  | e :: rest, best =>
    let score := calculate_match_score query keywords e
    let best1 :=
      match best with
      | none => some (e, score)
      | some b => if b.2 < score then some (e, score) else some b
    bestMatchLoop query keywords rest best1

/-- `find_best_match` over the list of active entries (the default threshold
in the source is 0.55). -/
def find_best_match (entries : List FaqEntry) (query : String)
    (threshold : ℚ) : Option (FaqEntry × ℚ) :=
  let cleaned := (pyStrip query)
  if cleaned = "" then none
  else if entries.isEmpty then none
  else
    let keywords := extract_keywords cleaned
    match bestMatchLoop cleaned keywords entries none with
    | none => none
    | some b => if threshold ≤ b.2 then some b else none

/-! ## The crawl walker (`scrape_website`, lines 842–1019)

The network and HTML parsing are external: a fetch environment maps a URL to
either a parsed `Page` or a failure message (network error, timeout, or
non-2xx status raised by `raise_for_status`).  `Page` carries exactly the
data the code reads from the soup: the title tag, the document's elements in
order (for the various `find_all` scans), anchors, images, and the resolved
candidate URLs that the six extraction methods of `discover_links` yield
(their HTML-structure scanning is collaborator behaviour of BeautifulSoup;
the final first-occurrence dedup and cap of lines 1266–1268 are embedded). -/

structure Anchor where
  text : String
  href : String
deriving DecidableEq, Repr

structure ImgTag where
  alt : Option String
  src : String
deriving DecidableEq, Repr

structure Page where
  titleTag : Option String
  tags : List ContentItem
  anchors : List Anchor
  imgs : List ImgTag
  rawLinks : List String
deriving DecidableEq, Repr

/-- `soup.find_all(names)` over the document's elements in order. -/
def findAllTags (p : Page) (names : List String) : List ContentItem :=
  p.tags.filter (fun t => t.tagName ∈ names)

/-- `discover_links`: first-occurrence dedup of the candidate stream, capped
at `maxLinks` (lines 1266–1268; called with `max_links=100`). -/
def discover_links (page : Page) (maxLinks : Nat) : List String :=
  (pyDedupFirst page.rawLinks).take maxLinks

/-- The deny-list of `is_valid_srm_page` (lines 1281–1288). -/
def skipPatterns : List String :=
  [".pdf", ".doc", ".docx", ".xls", ".xlsx", ".ppt", ".pptx",
   ".jpg", ".jpeg", ".png", ".gif", ".svg", ".ico",
   ".css", ".js", ".xml", ".json", ".txt",
   "mailto:", "tel:", "javascript:", "#",
   "/admin/", "/login", "/logout", "/api/",
   "facebook.com", "twitter.com", "linkedin.com", "youtube.com"]

/-- The domain allow-list (lines 1216, 1295). -/
def srmDomains : List String := ["srmist.edu.in", "srmuniversity.ac.in"]

/-- `is_valid_srm_page`: reject deny-listed substrings, require an
allow-listed domain substring. -/
def is_valid_srm_page (url : String) : Bool :=
  let urlLower := (pyLower url)
  if anyKw skipPatterns urlLower then false
  else anyKw srmDomains urlLower

/-- Skip-words of the admissions extraction (line 922). -/
def admissionSkipWords : List String :=
  ["menu", "students", "faculty", "staff", "parents", "visitors", "alumni",
   "examinations", "campuses"]

/-- Keyword list of the `specific_admission` extraction (line 939). -/
def specificAdmissionKeywords : List String :=
  ["srmjee", "neet", "cutoff", "merit list", "admission open", "last date",
   "application form"]

/-- Keyword list of the course extraction (line 954). -/
def scrapeCourseKeywords : List String :=
  ["course", "program", "curriculum", "specialization", "degree",
   "engineering", "btech", "mtech", "phd", "branch", "department", "faculty",
   "specialization"]

/-- Keyword list of the research extraction (line 965). -/
def scrapeResearchKeywords : List String :=
  ["research", "innovation", "publication", "patent", "laboratory",
   "project", "faculty", "publication", "conference", "journal", "paper"]

def contentTagNames : List String := ["p", "h1", "h2", "h3", "h4", "h5", "h6"]

def bigTagNames : List String :=
  ["p", "div", "span", "h1", "h2", "h3", "h4", "h5", "h6"]

/-- The `admission_info` extraction (lines 918–932): skip menu-ish texts,
keep keyword-matching texts of length 21–299, whitespace-normalized and
deduplicated, first 25.  (Its keyword list, line 925, is textually identical
to the build-side admissions list.) -/
def extractAdmissionInfo (p : Page) : List String :=
  ((findAllTags p bigTagNames).foldl
    (fun acc t =>
      let text := (pyStrip t.text)
      if anyKw admissionSkipWords (pyLower text) then acc
      else if anyKw admissionsKeywords (pyLower text) &&
          (20 < text.length && text.length < 300) then
        let clean := normWs text
        if clean ∈ acc then acc else acc ++ [clean]
      else acc)
    []).take 25

/-- The `specific_admission` extraction (lines 936–946). -/
def extractSpecificAdmission (p : Page) : List String :=
  ((findAllTags p ["p", "div"]).foldl
    (fun acc t =>
      let text := (pyStrip t.text)
      if anyKw specificAdmissionKeywords (pyLower text) &&
          (30 < text.length && text.length < 200) then
        let clean := normWs text
        if clean ∈ acc then acc else acc ++ [clean]
      else acc)
    []).take 10

/-- The `course_info` extraction (lines 950–957): no dedup, raw trimmed
texts of length 11–499, first 20. -/
def extractCourseInfo (p : Page) : List String :=
  ((findAllTags p bigTagNames).foldl
    (fun acc t =>
      let text := (pyStrip t.text)
      if anyKw scrapeCourseKeywords (pyLower text) &&
          (10 < text.length && text.length < 500) then
        acc ++ [text]
      else acc)
    []).take 20

/-- The `research_info` extraction (lines 960–968). -/
def extractResearchInfo (p : Page) : List String :=
  ((findAllTags p bigTagNames).foldl
    (fun acc t =>
      let text := (pyStrip t.text)
      if anyKw scrapeResearchKeywords (pyLower text) &&
          (10 < text.length && text.length < 500) then
        acc ++ [text]
      else acc)
    []).take 20

/-- The content extraction of one successfully fetched page
(lines 882–968): title, first 30 non-blank content tags, first 15 non-blank
anchors, first 8 images with a non-empty `alt`, and the URL-dependent
admission/course/research extractions. -/
def extract_page_content (url : String) (p : Page) : PageContent :=
  let title :=
    match p.titleTag with
    | some t => (pyStrip t)
    | none => "No title found"
  let mainContent :=
    ((findAllTags p contentTagNames).take 30).filterMap
      (fun t => if (pyStrip t.text) = "" then none else some ⟨t.tagName, (pyStrip t.text)⟩)
  let navigation :=
    (p.anchors.take 15).filterMap
      (fun a => if (pyStrip a.text) = "" then none else some ((pyStrip a.text), a.href))
  let images :=
    (p.imgs.take 8).filterMap
      (fun i =>
        match i.alt with
        | some alt => if alt = "" then none else some (alt, i.src)
        | none => none)
  let urlLower := (pyLower url)
  if pyIn "admissions" urlLower then
    ⟨title, mainContent, navigation, images, extractAdmissionInfo p,
      extractSpecificAdmission p, [], []⟩
  else if pyIn "academics" urlLower || pyIn "courses" urlLower ||
      pyIn "engineering" urlLower then
    ⟨title, mainContent, navigation, images, [], [], extractCourseInfo p, []⟩
  else if pyIn "research" urlLower then
    ⟨title, mainContent, navigation, images, [], [], [], extractResearchInfo p⟩
  else
    ⟨title, mainContent, navigation, images, [], [], [], []⟩

/-- The record returned by the outer `except` branch (lines 1010–1019): an
`error`-status record; the Python dict has no content and no sub-page keys
(reads of them default to empty). -/
def errorRecord (sourceName url : String) (depth : Nat) (e : String) :
    PageRecord :=
  .mk sourceName url depth .error PageContent.empty [] (some e)

/-- One fetch event of a crawl run: the URL passed to `requests.get`, the
contents of the shared `visited_urls` set at the moment of the request (the
URL is added at line 857, before the request at line 865), and whether the
fetch succeeded. -/
structure FetchEv where
  url : String
  visitedAt : List String
  ok : Bool
deriving DecidableEq, Repr

mutual

/-- `scrape_website` (lines 842–1019) with the shared `visited_urls` set
threaded explicitly.  Returns the produced record (`none` when the budget is
exhausted or the URL was already visited, mirroring `return None`), the
chronological list of fetch events of this call, and the visited set after
the call (which only grows — the subtype carries the growth fact used for
termination). -/
def scrape_website (env : String → Except String Page) (maxPages : Nat)
    (sourceName url : String) (depth : Nat) (visited : List String) :
    Option PageRecord × List FetchEv ×
      {w : List String // visited.length ≤ w.length} :=
  if _hstop : maxPages ≤ visited.length then (none, [], ⟨visited, Nat.le_refl _⟩)
  else if _hvis : url ∈ visited then (none, [], ⟨visited, Nat.le_refl _⟩)
  else
    match env url with
    | .error e =>
      (some (errorRecord sourceName url depth e),
        [⟨url, url :: visited, false⟩], ⟨url :: visited, Nat.le_succ _⟩)
    | .ok page =>
      let content := extract_page_content url page
      let res :=
        if (url :: visited).length < maxPages then
          scrape_subpages env maxPages sourceName (discover_links page 100)
            (depth + 1) (url :: visited) 0
        else ([], [], ⟨url :: visited, Nat.le_refl _⟩)
      (some (.mk sourceName url depth .success content res.1 none),
        ⟨url, url :: visited, true⟩ :: res.2.1,
        ⟨res.2.2.1, Nat.le_trans (Nat.le_succ _) res.2.2.2⟩)
termination_by (maxPages - visited.length, 0)
decreasing_by
  apply Prod.Lex.left
  simp only [List.length_cons]
  omega

/-- The sub-page loop of `scrape_website` (lines 976–1005): expand each
discovered link that is a valid SRM page and not yet visited; a produced
record (success or error) is appended and counted, stopping after the 50th;
`None` results are skipped. -/
def scrape_subpages (env : String → Except String Page) (maxPages : Nat)
    (sourceName : String) (links : List String) (depth : Nat)
    (visited : List String) (count : Nat) :
    List PageRecord × List FetchEv ×
      {w : List String // visited.length ≤ w.length} :=
  match links with
  | [] => ([], [], ⟨visited, Nat.le_refl _⟩)
  | l :: ls =>
    if is_valid_srm_page l ∧ l ∉ visited then
      match scrape_website env maxPages (sourceName ++ " - Sub-page") l depth
          visited with
      | (some rec, evs, ⟨v1, hv1⟩) =>
        if 50 ≤ count + 1 then ([rec], evs, ⟨v1, hv1⟩)
        else
          let rest :=
            scrape_subpages env maxPages sourceName ls depth v1 (count + 1)
          (rec :: rest.1, evs ++ rest.2.1,
            ⟨rest.2.2.1, Nat.le_trans hv1 rest.2.2.2⟩)
      | (none, evs, ⟨v1, hv1⟩) =>
        let rest := scrape_subpages env maxPages sourceName ls depth v1 count
        (rest.1, evs ++ rest.2.1,
          ⟨rest.2.2.1, Nat.le_trans hv1 rest.2.2.2⟩)
    else scrape_subpages env maxPages sourceName ls depth visited count
termination_by (maxPages - visited.length, links.length + 1)
decreasing_by
  · exact Prod.Lex.right _ (by simp only [List.length_cons]; omega)
  · rcases lt_or_eq_of_le (Nat.sub_le_sub_left hv1 maxPages) with h | h
    · exact Prod.Lex.left _ _ h
    · rw [h]; exact Prod.Lex.right _ (by simp only [List.length_cons]; omega)
  · rcases lt_or_eq_of_le (Nat.sub_le_sub_left hv1 maxPages) with h | h
    · exact Prod.Lex.left _ _ h
    · rw [h]; exact Prod.Lex.right _ (by simp only [List.length_cons]; omega)
  · exact Prod.Lex.right _ (by simp only [List.length_cons]; omega)

end

/-- One top-level crawl run: `scrape_website(url, name, depth=0, …)` with a
fresh `visited_urls` set (lines 844–845, and every call site). -/
def runCrawl (env : String → Except String Page) (maxPages : Nat)
    (sourceName url : String) :
    Option PageRecord × List FetchEv ×
      {w : List String // ([] : List String).length ≤ w.length} :=
  scrape_website env maxPages sourceName url 0 []

/-! ## Auxiliary definitions used by the verification -/

/-- Every bucket of the database is duplicate-free. -/
def BucketsNodup (db : KnowledgeDB) : Prop := ∀ c, (db.get c).Nodup

/-- Modelled from the spec as amended: the source's actual blended score —
the answer similarity is halved before the 0.2 weight is applied, so its
effective coefficient is 0.1, not the 0.2 the spec states. -/
def specMatchScoreAmended (query : String) (keywords : List String)
    (e : FaqEntry) : ℚ :=
  let question := (pyLower e.question)
  let answer := (pyLower e.answer)
  let tags := pyLower (pyJoin " " e.tags)
  let questionSimilarity := sequenceSimilarity (pyLower query) question
  let answerSimilarity := sequenceSimilarity (pyLower query) answer
  let keywordHits : Nat :=
    (keywords.filter (fun kw => pyIn kw question || pyIn kw tags)).length
  let keywordScore : ℚ := min ((keywordHits : ℚ) / (max keywords.length 1 : ℚ)) 1
  let combined :=
    questionSimilarity * (0.6 : ℚ) + answerSimilarity * (0.1 : ℚ) +
      keywordScore * (0.2 : ℚ)
  let categoryBonus : ℚ :=
    match e.category with
    | some cv => if keywords.any (fun kw => pyIn cv kw) then (0.05 : ℚ) else 0
    | none => 0
  min (combined + categoryBonus) 1

/-- A FAQ entry whose question shares nothing with the query `"zzz"` but
whose answer is exactly that query. -/
def demoFaqEntry : FaqEntry := ⟨"qqq", "zzz", [], none⟩

/-- A concrete parsed page: one admissions-flavoured paragraph and one
outbound link. -/
def demoPage : Page :=
  ⟨some "SRM", [⟨"p", "Admission to SRM btech programs open now"⟩], [], [],
    ["https://www.srmist.edu.in/a"]⟩

/-- A concrete fetch environment: the seed resolves to `demoPage`, every
other URL times out. -/
def demoEnv : String → Except String Page :=
  fun u =>
    if u = "https://www.srmist.edu.in/" then .ok demoPage
    else .error "timeout"

/-- A concrete one-record crawl snapshot holding one admissions fragment. -/
def demoSnapshot : List PageRecord :=
  [.mk "SRM" "https://www.srmist.edu.in/" 0 .success
    ⟨"SRM", [⟨"p", "Admission to SRM btech programs open now"⟩],
      [], [], [], [], [], []⟩ [] none]

/-- The run invariant of the crawl walker, relating the visited set `v` at
entry to the fetch events `evs` performed and the visited set `w` at exit:
the visited set grows by exactly the fetched URLs; every fetched URL was
unvisited at entry, was already a member of the visited set snapshotted at
its own fetch time, and that snapshot respected the page budget; no URL is
fetched twice; and the exit visited set respects the page budget. -/
def CrawlOutOk (M : Nat) (v : List String) (evs : List FetchEv)
    (w : List String) : Prop :=
  w = (evs.map FetchEv.url).reverse ++ v ∧
  (∀ ev ∈ evs, ev.url ∉ v ∧ ev.url ∈ ev.visitedAt ∧ ev.visitedAt.length ≤ M) ∧
  (evs.map FetchEv.url).Nodup ∧
  w.length ≤ M

/-! ## Helper lemmas: the knowledge-database rebuild -/

theorem KnowledgeDB.get_set (db : KnowledgeDB) (c c' : KCat) (l : List String) :
    (db.set c l).get c' = if c' = c then l else db.get c' := by
  cases c <;> cases c' <;> simp [KnowledgeDB.get, KnowledgeDB.set]

theorem insertNew_nodup {db : KnowledgeDB} (h : BucketsNodup db)
    (c : KCat) (t : String) : BucketsNodup (db.insertNew c t) := by
  intro c'
  unfold KnowledgeDB.insertNew
  split
  · exact h c'
  · rename_i ht
    rw [KnowledgeDB.get_set]
    split
    · exact List.Nodup.append (h c) (List.nodup_singleton t)
        (by intro a ha hb; simp at hb; subst hb; exact ht ha)
    · exact h c'

theorem foldl_preserve {α β : Type} (P : α → Prop) (f : α → β → α)
    (hf : ∀ a b, P a → P (f a b)) :
    ∀ (l : List β) (a : α), P a → P (l.foldl f a) := by
  intro l
  induction l with
  | nil => intro a ha; exact ha
  | cons x xs ih => intro a ha; exact ih (f a x) (hf a x ha)

theorem processMainItem_nodup {db : KnowledgeDB} (h : BucketsNodup db)
    (item : ContentItem) : BucketsNodup (processMainItem db item) := by
  simp only [processMainItem]
  split
  · exact h
  · exact insertNew_nodup h _ _

theorem processSpecificList_nodup {db : KnowledgeDB} (h : BucketsNodup db)
    (items : List String) : BucketsNodup (processSpecificList db items) := by
  unfold processSpecificList
  refine foldl_preserve _ _ ?_ _ _ h
  intro a b ha
  split
  · exact insertNew_nodup ha _ _
  · exact ha

theorem processAux_nodup :
    ∀ (fuel : Nat) (db : KnowledgeDB) (rec : PageRecord) (depth : Nat),
      BucketsNodup db → BucketsNodup (processAux fuel db rec depth) := by
  intro fuel
  induction fuel with
  | zero => intro db rec depth h; exact h
  | succ n ih =>
    intro db rec depth h
    simp only [processAux]
    split
    · exact h
    · refine foldl_preserve BucketsNodup _ ?_ _ _ ?_
      · intro a b ha
        exact ih a b (depth + 1) ha
      · exact processSpecificList_nodup (processSpecificList_nodup
          (processSpecificList_nodup (processSpecificList_nodup
            (foldl_preserve BucketsNodup _
              (fun a b ha => processMainItem_nodup ha b) _ _ h) _) _) _) _

theorem process_content_recursive_nodup (depth : Nat) (rec : PageRecord)
    (db : KnowledgeDB) (h : BucketsNodup db) :
    BucketsNodup (process_content_recursive db rec depth) :=
  processAux_nodup (4 - depth) db rec depth h

theorem emptyDB_nodup : BucketsNodup emptyDB := by
  intro c; cases c <;> simp [emptyDB, KnowledgeDB.get]

theorem fillDatabase_nodup (snapshot : List PageRecord) {db : KnowledgeDB}
    (h : BucketsNodup db) : BucketsNodup (fillDatabase db snapshot) := by
  unfold fillDatabase
  refine foldl_preserve BucketsNodup _ ?_ _ _ h
  intro a b ha
  split
  · exact process_content_recursive_nodup 0 b a ha
  · exact ha

theorem truncateBuckets_get (db : KnowledgeDB) (c : KCat) :
    (truncateBuckets db).get c = (db.get c).take 50 := by
  cases c <;> simp [truncateBuckets, KnowledgeDB.get]

/-! ## C5, C6, C7: properties of the rebuild -/

/-- C5: after every run of `build_knowledge_database`, each category bucket
holds at most 50 entries, its entries are pairwise distinct (verbatim
dedup on insert), and it is exactly the first 50 entries of the bucket
accumulated in insertion order by the fill loop (so insertion order is
preserved by the truncation). -/
theorem c5_bucket_cap_dedup_order (snapshot : List PageRecord)
    (db : KnowledgeDB) (c : KCat) :
    ((build_knowledge_database snapshot db).get c).length ≤ 50 ∧
    ((build_knowledge_database snapshot db).get c).Nodup ∧
    (build_knowledge_database snapshot db).get c =
      ((fillDatabase (clearDatabase db) snapshot).get c).take 50 := by
  have hfill : BucketsNodup (fillDatabase (clearDatabase db) snapshot) :=
    fillDatabase_nodup snapshot emptyDB_nodup
  have heq : (build_knowledge_database snapshot db).get c =
      ((fillDatabase (clearDatabase db) snapshot).get c).take 50 := by
    by_cases hempty : snapshot.isEmpty
    · rw [List.isEmpty_iff] at hempty
      subst hempty
      have h1 : build_knowledge_database [] db = emptyDB := rfl
      have h2 : fillDatabase (clearDatabase db) [] = emptyDB := rfl
      rw [h1, h2]
      cases c <;> simp [emptyDB, KnowledgeDB.get]
    · have h1 : build_knowledge_database snapshot db =
          truncateBuckets (fillDatabase (clearDatabase db) snapshot) := by
        unfold build_knowledge_database
        rw [if_neg (by simpa using hempty)]
      rw [h1, truncateBuckets_get]
  refine ⟨?_, ?_, heq⟩
  · rw [heq]
    simp [List.length_take]
  · rw [heq]
    exact (hfill c).sublist (List.take_sublist _ _)

/-- C6: rebuilding twice from the same crawl snapshot yields exactly the
same database as rebuilding once (the rebuild clears the previous contents
first, so its result depends only on the snapshot): bucket-identical
contents and hence identical sizes. -/
theorem c6_rebuild_idempotent (snapshot : List PageRecord) (db : KnowledgeDB) :
    build_knowledge_database snapshot (build_knowledge_database snapshot db) =
      build_knowledge_database snapshot db ∧
    ∀ c : KCat,
      (build_knowledge_database snapshot
          (build_knowledge_database snapshot db)).get c =
        (build_knowledge_database snapshot db).get c := by
  exact ⟨rfl, fun c => rfl⟩

/-- C7: categorization is deterministic first-match-wins over the fixed
priority order admissions, courses, research, events, facilities, with
`general` as the fall-through for fragments matching no keyword list; in
particular the fragment `"SRMJEEE 2025 application deadline is May 31"` is
classified `admissions`, never `general`. -/
theorem c7_categorizer_priority :
    (∀ text : String,
      categorize text =
        ((categoryPriority.find? (fun c => catMatches c text)).getD .general)) ∧
    categorize "SRMJEEE 2025 application deadline is May 31" = .admissions := by
  constructor
  · intro text
    by_cases h1 : anyKw admissionsKeywords (pyLower text) <;>
      by_cases h2 : anyKw coursesKeywords (pyLower text) <;>
        by_cases h3 : anyKw researchKeywords (pyLower text) <;>
          by_cases h4 : anyKw eventsKeywords (pyLower text) <;>
            by_cases h5 : anyKw facilitiesKeywords (pyLower text) <;>
              simp [categorize, categoryPriority, catMatches, keywordsOf,
                List.find?, h1, h2, h3, h4, h5]
  · rfl

/-! ## C4: the rebuild is not an atomic swap -/

/-- C4 counterexample: `build_knowledge_database` mutates the live index in
place — its first step (the clear loop, lines 1051–1052) empties every
bucket of the process-wide database, so at that intermediate point of a
rebuild the visible index is neither the old index nor the completed new
index.  A build that fails after clearing therefore does not leave the old
index visible, contradicting the claim. -/
theorem c4_no_atomic_swap_counterexample :
    clearDatabase ⟨["old admissions entry kept from the previous build"],
        [], [], [], [], []⟩ ≠
      (⟨["old admissions entry kept from the previous build"],
        [], [], [], [], []⟩ : KnowledgeDB) ∧
    clearDatabase ⟨["old admissions entry kept from the previous build"],
        [], [], [], [], []⟩ ≠
      build_knowledge_database demoSnapshot
        ⟨["old admissions entry kept from the previous build"],
          [], [], [], [], []⟩ ∧
    build_knowledge_database demoSnapshot
        ⟨["old admissions entry kept from the previous build"],
          [], [], [], [], []⟩ ≠
      ⟨["old admissions entry kept from the previous build"],
        [], [], [], [], []⟩ := by
  refine ⟨by decide, by decide, by decide⟩

/-- C4 amended: the rebuild is performed in place, not by building a new
instance and swapping: its first action clears every bucket of the live
index, and the completed result is independent of whatever the index held
before — the old index does not survive into (or past) a rebuild. -/
theorem c4_in_place_rebuild :
    (∀ db : KnowledgeDB, clearDatabase db = emptyDB) ∧
    ∀ (snapshot : List PageRecord) (db db' : KnowledgeDB),
      build_knowledge_database snapshot db =
        build_knowledge_database snapshot db' := by
  exact ⟨fun db => rfl, fun snapshot db db' => rfl⟩

/-! ## C9: the query path is a read except on an all-empty index -/

/-- C9 counterexample: with every bucket empty and a non-empty crawl
snapshot available, `get_relevant_scraped_info` mutates the shared
knowledge database (it triggers a full rebuild), so the query path is not
a pure read. -/
theorem c9_query_mutates_counterexample :
    (get_relevant_scraped_info demoSnapshot "hello" emptyDB).2 ≠ emptyDB := by
  decide

/-- C9 amended: the query path leaves the shared knowledge database (and
the snapshot, which it only reads) unchanged whenever at least one bucket
is non-empty; only when every bucket is empty does it trigger
`build_knowledge_database`, mutating the shared database (and the
last-built timestamp). -/
theorem c9_query_pure_when_nonempty (snapshot : List PageRecord)
    (message : String) (db : KnowledgeDB) (h : dbAllEmpty db = false) :
    (get_relevant_scraped_info snapshot message db).2 = db := by
  unfold get_relevant_scraped_info
  simp [h]

/-- C9 witness: a concrete non-empty database is returned unchanged. -/
theorem c9_query_pure_witness :
    dbAllEmpty ⟨["entry"], [], [], [], [], []⟩ = false ∧
    (get_relevant_scraped_info demoSnapshot "admission details"
        ⟨["entry"], [], [], [], [], []⟩).2 =
      ⟨["entry"], [], [], [], [], []⟩ := by
  exact ⟨by decide,
    c9_query_pure_when_nonempty demoSnapshot "admission details"
      ⟨["entry"], [], [], [], [], []⟩ (by decide)⟩

/-! ## Helper lemmas: the crawl walker -/

theorem CrawlOutOk.nilCase {M : Nat} {v : List String} (hv : v.length ≤ M) :
    CrawlOutOk M v [] v :=
  ⟨by simp, by simp, by simp, hv⟩

theorem CrawlOutOk.append {M : Nat} {v v1 w2 : List String}
    {evs1 evs2 : List FetchEv} (h1 : CrawlOutOk M v evs1 v1)
    (h2 : CrawlOutOk M v1 evs2 w2) : CrawlOutOk M v (evs1 ++ evs2) w2 := by
  obtain ⟨e1, m1, n1, l1⟩ := h1
  obtain ⟨e2, m2, n2, l2⟩ := h2
  refine ⟨?_, ?_, ?_, l2⟩
  · rw [e2, e1]
    simp [List.reverse_append, List.append_assoc]
  · intro ev hev
    rcases List.mem_append.mp hev with h | h
    · exact m1 ev h
    · obtain ⟨hnotin, hmem, hlen⟩ := m2 ev h
      refine ⟨fun hvv => hnotin ?_, hmem, hlen⟩
      rw [e1]
      exact List.mem_append_right _ hvv
  · rw [List.map_append]
    refine List.Nodup.append n1 n2 ?_
    intro a ha hb
    have ha1 : a ∈ v1 := by
      rw [e1]
      exact List.mem_append_left _ (List.mem_reverse.mpr ha)
    obtain ⟨ev2, hev2, rfl⟩ := List.mem_map.mp hb
    exact (m2 ev2 hev2).1 ha1

theorem CrawlOutOk.fetchCons {M : Nat} {v : List String} {url : String}
    (hnotin : url ∉ v) (hlen : v.length < M) {evs : List FetchEv}
    {w : List String} (ok : Bool) (h : CrawlOutOk M (url :: v) evs w) :
    CrawlOutOk M v (⟨url, url :: v, ok⟩ :: evs) w := by
  obtain ⟨e, m, n, l⟩ := h
  refine ⟨?_, ?_, ?_, l⟩
  · rw [e]
    simp
  · intro ev hev
    rcases List.mem_cons.mp hev with rfl | hmem
    · exact ⟨hnotin, List.mem_cons_self _ _, by simp [Nat.succ_le_of_lt hlen]⟩
    · obtain ⟨hni, hm, hl⟩ := m ev hmem
      exact ⟨fun hvv => hni (List.mem_cons_of_mem _ hvv), hm, hl⟩
  · simp only [List.map_cons]
    refine List.nodup_cons.mpr ⟨?_, n⟩
    intro hmem
    obtain ⟨ev', hev', hurl⟩ := List.mem_map.mp hmem
    exact (m ev' hev').1 (hurl ▸ List.mem_cons_self url v)

theorem scrape_subpages_ok (env : String → Except String Page) (M k : Nat)
    (hS : ∀ (src url : String) (depth : Nat) (v : List String),
      v.length ≤ M → M - v.length ≤ k →
      CrawlOutOk M v (scrape_website env M src url depth v).2.1
        (scrape_website env M src url depth v).2.2.1) :
    ∀ (links : List String) (src : String) (depth count : Nat)
      (v : List String), v.length ≤ M → M - v.length ≤ k →
      CrawlOutOk M v (scrape_subpages env M src links depth v count).2.1
        (scrape_subpages env M src links depth v count).2.2.1 := by
  intro links
  induction links with
  | nil =>
    intro src depth count v hv hk
    rw [scrape_subpages]
    exact CrawlOutOk.nilCase hv
  | cons l ls ih =>
    intro src depth count v hv hk
    rw [scrape_subpages]
    by_cases hcond : is_valid_srm_page l ∧ l ∉ v
    · rw [if_pos hcond]
      have hsc := hS (src ++ " - Sub-page") l depth v hv hk
      rcases hres : scrape_website env M (src ++ " - Sub-page") l depth v with
        ⟨r, evs1, v1, hv1⟩
      rw [hres] at hsc
      have hv1M : v1.length ≤ M := hsc.2.2.2
      have hv1len : v.length ≤ v1.length := hv1
      have hk1 : M - v1.length ≤ k := by omega
      cases r with
      | none =>
        dsimp only
        exact CrawlOutOk.append hsc (ih src depth count v1 hv1M hk1)
      | some rec =>
        dsimp only
        by_cases hcnt : 50 ≤ count + 1
        · rw [if_pos hcnt]
          exact hsc
        · rw [if_neg hcnt]
          exact CrawlOutOk.append hsc (ih src depth (count + 1) v1 hv1M hk1)
    · rw [if_neg hcond]
      exact ih src depth count v hv hk

theorem scrape_website_ok (env : String → Except String Page) (M : Nat) :
    ∀ (k : Nat) (src url : String) (depth : Nat) (v : List String),
      v.length ≤ M → M - v.length ≤ k →
      CrawlOutOk M v (scrape_website env M src url depth v).2.1
        (scrape_website env M src url depth v).2.2.1 := by
  intro k
  induction k with
  | zero =>
    intro src url depth v hv hk
    rw [scrape_website, dif_pos (by omega)]
    exact CrawlOutOk.nilCase hv
  | succ n ih =>
    intro src url depth v hv hk
    rw [scrape_website]
    by_cases h1 : M ≤ v.length
    · rw [dif_pos h1]
      exact CrawlOutOk.nilCase hv
    · rw [dif_neg h1]
      by_cases h2 : url ∈ v
      · rw [dif_pos h2]
        exact CrawlOutOk.nilCase hv
      · rw [dif_neg h2]
        cases henv : env url with
        | error e =>
          dsimp only
          refine CrawlOutOk.fetchCons h2 (by omega) false (CrawlOutOk.nilCase ?_)
          simp only [List.length_cons]
          omega
        | ok page =>
          dsimp only
          by_cases h3 : (url :: v).length < M
          · simp only [if_pos h3]
            refine CrawlOutOk.fetchCons h2 (by omega) true ?_
            refine scrape_subpages_ok env M n ih (discover_links page 100) src
              (depth + 1) 0 (url :: v) ?_ ?_
            · simp only [List.length_cons]; omega
            · simp only [List.length_cons]; omega
          · simp only [if_neg h3]
            refine CrawlOutOk.fetchCons h2 (by omega) true (CrawlOutOk.nilCase ?_)
            simp only [List.length_cons]
            omega

/-- The run invariant instantiated at a top-level call (fresh visited set). -/
theorem runCrawl_ok (env : String → Except String Page) (M : Nat)
    (src url : String) :
    CrawlOutOk M [] (runCrawl env M src url).2.1
      (runCrawl env M src url).2.2.1 :=
  scrape_website_ok env M (M - 0) src url 0 [] (by simp) (by simp)

/-! ## C1, C2, C8, C10: properties of the crawl walker -/

/-- C1: for every seed URL, page budget, and link graph (fetch environment,
cycles included), a top-level `scrape_website` call terminates — the
embedding is a total function, its acceptance being the termination
argument: the visited set grows at every fetch and is bounded by the budget
— and over the whole run the shared visited set never holds more than
`maxPages` distinct URLs (neither at any fetch nor at exit), so at most
`maxPages` pages are fetched. -/
theorem c1_crawl_budget (env : String → Except String Page) (maxPages : Nat)
    (sourceName url : String) :
    (runCrawl env maxPages sourceName url).2.2.1.length ≤ maxPages ∧
    (runCrawl env maxPages sourceName url).2.1.length ≤ maxPages ∧
    ∀ ev ∈ (runCrawl env maxPages sourceName url).2.1,
      ev.visitedAt.length ≤ maxPages := by
  obtain ⟨he, hm, hn, hl⟩ := runCrawl_ok env maxPages sourceName url
  have hlen : (runCrawl env maxPages sourceName url).2.2.1.length =
      (runCrawl env maxPages sourceName url).2.1.length := by
    rw [he]; simp
  exact ⟨hl, by omega, fun ev hev => (hm ev hev).2.2⟩

/-- C1 witness: a concrete two-page run under budget 2. -/
theorem c1_crawl_budget_witness :
    FetchEv.mk "https://www.srmist.edu.in/" ["https://www.srmist.edu.in/"] true
        ∈ (runCrawl demoEnv 2 "SRM" "https://www.srmist.edu.in/").2.1 ∧
    (FetchEv.mk "https://www.srmist.edu.in/" ["https://www.srmist.edu.in/"]
        true).visitedAt.length ≤ 2 := by
  have hev : (runCrawl demoEnv 2 "SRM" "https://www.srmist.edu.in/").2.1 =
      [⟨"https://www.srmist.edu.in/", ["https://www.srmist.edu.in/"], true⟩,
        ⟨"https://www.srmist.edu.in/a",
          ["https://www.srmist.edu.in/a", "https://www.srmist.edu.in/"],
          false⟩] := by
    simp +decide [runCrawl, scrape_website, scrape_subpages, demoEnv,
      demoPage, discover_links, pyDedupFirst, List.foldl]
  have hmem : FetchEv.mk "https://www.srmist.edu.in/"
      ["https://www.srmist.edu.in/"] true
        ∈ (runCrawl demoEnv 2 "SRM" "https://www.srmist.edu.in/").2.1 := by
    rw [hev]
    exact List.mem_cons_self _ _
  exact ⟨hmem,
    (c1_crawl_budget demoEnv 2 "SRM" "https://www.srmist.edu.in/").2.2 _ hmem⟩

/-- C2: within one crawl run no URL is fetched twice: a call on a URL
already in the shared visited set returns `None` without any fetch event and
without touching the visited set (URLs are added to the set before any
recursion into them), and the fetch log of a whole top-level run is
duplicate-free even on cyclic graphs. -/
theorem c2_no_refetch :
    (∀ (env : String → Except String Page) (maxPages : Nat)
        (sourceName url : String) (depth : Nat) (visited : List String),
      url ∈ visited →
        (scrape_website env maxPages sourceName url depth visited).1 = none ∧
        (scrape_website env maxPages sourceName url depth visited).2.1 = [] ∧
        (scrape_website env maxPages sourceName url depth visited).2.2.1 =
          visited) ∧
    ∀ (env : String → Except String Page) (maxPages : Nat)
      (sourceName url : String),
      ((runCrawl env maxPages sourceName url).2.1.map FetchEv.url).Nodup := by
  constructor
  · intro env M src url depth v h
    rw [scrape_website]
    by_cases h1 : M ≤ v.length
    · rw [dif_pos h1]
      exact ⟨rfl, rfl, rfl⟩
    · rw [dif_neg h1, dif_pos h]
      exact ⟨rfl, rfl, rfl⟩
  · intro env M src url
    exact (runCrawl_ok env M src url).2.2.1

/-- C2 witness: a concrete already-visited URL is skipped without a fetch,
and the concrete demo run's fetch log is duplicate-free. -/
theorem c2_no_refetch_witness :
    (scrape_website demoEnv 5 "s" "u" 0 ["u"]).1 = none ∧
    (scrape_website demoEnv 5 "s" "u" 0 ["u"]).2.1 = [] ∧
    (scrape_website demoEnv 5 "s" "u" 0 ["u"]).2.2.1 = ["u"] ∧
    ((runCrawl demoEnv 2 "SRM" "https://www.srmist.edu.in/").2.1.map
      FetchEv.url).Nodup := by
  obtain ⟨a, b, c⟩ := c2_no_refetch.1 demoEnv 5 "s" "u" 0 ["u"] (by simp)
  exact ⟨a, b, c, c2_no_refetch.2 demoEnv 2 "SRM" "https://www.srmist.edu.in/"⟩

/-- C8: a URL whose fetch fails yields a record with status `error` and an
empty child list; the failure does not abort the parent: the error record is
appended to the parent's children and the parent goes on expanding its
remaining discovered links (with the budget and child counter advanced).
No exception propagates — in this embedding every failure is the data value
`Except.error`, and `scrape_website` is a total function. -/
theorem c8_fetch_failure_isolated (env : String → Except String Page)
    (maxPages : Nat) (sourceName l : String) (ls : List String) (depth : Nat)
    (visited : List String) (count : Nat) (e : String)
    (henv : env l = .error e) (hval : is_valid_srm_page l = true)
    (hnv : l ∉ visited) (hbudget : visited.length < maxPages)
    (hcount : count + 1 < 50) :
    (errorRecord (sourceName ++ " - Sub-page") l depth e).status = .error ∧
    (errorRecord (sourceName ++ " - Sub-page") l depth e).sub_pages = [] ∧
    (scrape_subpages env maxPages sourceName (l :: ls) depth visited
        count).1 =
      errorRecord (sourceName ++ " - Sub-page") l depth e ::
        (scrape_subpages env maxPages sourceName ls depth (l :: visited)
          (count + 1)).1 ∧
    (scrape_subpages env maxPages sourceName (l :: ls) depth visited
        count).2.1 =
      FetchEv.mk l (l :: visited) false ::
        (scrape_subpages env maxPages sourceName ls depth (l :: visited)
          (count + 1)).2.1 := by
  have hsc : scrape_website env maxPages (sourceName ++ " - Sub-page") l
      depth visited =
      (some (errorRecord (sourceName ++ " - Sub-page") l depth e),
        [⟨l, l :: visited, false⟩], ⟨l :: visited, Nat.le_succ _⟩) := by
    rw [scrape_website, dif_neg (by omega), dif_neg hnv, henv]
  refine ⟨rfl, rfl, ?_⟩
  rw [scrape_subpages, if_pos ⟨hval, hnv⟩, hsc]
  dsimp only
  rw [if_neg (by omega)]
  exact ⟨rfl, rfl⟩

/-- C8 witness: the concrete failing link of the demo environment. -/
theorem c8_fetch_failure_witness :
    demoEnv "https://www.srmist.edu.in/a" = .error "timeout" ∧
    (errorRecord ("SRM" ++ " - Sub-page") "https://www.srmist.edu.in/a" 1
      "timeout").status = .error ∧
    (errorRecord ("SRM" ++ " - Sub-page") "https://www.srmist.edu.in/a" 1
      "timeout").sub_pages = [] ∧
    (scrape_subpages demoEnv 5 "SRM" ["https://www.srmist.edu.in/a"] 1 []
        0).1 =
      errorRecord ("SRM" ++ " - Sub-page") "https://www.srmist.edu.in/a" 1
          "timeout" ::
        (scrape_subpages demoEnv 5 "SRM" [] 1 ["https://www.srmist.edu.in/a"]
          1).1 ∧
    (scrape_subpages demoEnv 5 "SRM" ["https://www.srmist.edu.in/a"] 1 []
        0).2.1 =
      FetchEv.mk "https://www.srmist.edu.in/a" ["https://www.srmist.edu.in/a"]
          false ::
        (scrape_subpages demoEnv 5 "SRM" [] 1 ["https://www.srmist.edu.in/a"]
          1).2.1 := by
  have h := c8_fetch_failure_isolated demoEnv 5 "SRM"
    "https://www.srmist.edu.in/a" [] 1 [] 0 "timeout" (by rfl) (by decide)
    (by simp) (by decide) (by decide)
  exact ⟨by rfl, h.1, h.2.1, h.2.2.1, h.2.2.2⟩

/-- C10: every URL that reaches the fetch step is already a member of the
shared visited set snapshotted at the moment of the request (inserted before
the fetch is attempted), and it stays in the run's final visited set — a
failed URL permanently occupies a unit of the page budget and, the fetch
log being duplicate-free, is never retried.  Consequently a run can produce
strictly fewer successful pages than `maxPages`: the concrete demo run has
budget 2, exhausts it (visited set of size 2), yet only 1 fetch succeeds. -/
theorem c10_visited_before_fetch :
    (∀ (env : String → Except String Page) (maxPages : Nat)
        (sourceName url : String) (ev : FetchEv),
      ev ∈ (runCrawl env maxPages sourceName url).2.1 →
        ev.url ∈ ev.visitedAt ∧
        ev.url ∈ (runCrawl env maxPages sourceName url).2.2.1) ∧
    (∀ (env : String → Except String Page) (maxPages : Nat)
        (sourceName url : String),
      ((runCrawl env maxPages sourceName url).2.1.map FetchEv.url).Nodup) ∧
    ((runCrawl demoEnv 2 "SRM" "https://www.srmist.edu.in/").2.1.filter
        (fun ev => ev.ok)).length = 1 ∧
    (runCrawl demoEnv 2 "SRM" "https://www.srmist.edu.in/").2.2.1.length =
      2 := by
  refine ⟨?_, ?_, ?_, ?_⟩
  · intro env M src url ev hev
    obtain ⟨he, hm, hn, hl⟩ := runCrawl_ok env M src url
    refine ⟨(hm ev hev).2.1, ?_⟩
    rw [he]
    refine List.mem_append_left _ (List.mem_reverse.mpr ?_)
    exact List.mem_map.mpr ⟨ev, hev, rfl⟩
  · intro env M src url
    exact (runCrawl_ok env M src url).2.2.1
  · simp +decide [runCrawl, scrape_website, scrape_subpages, demoEnv,
      demoPage, discover_links, pyDedupFirst, List.foldl]
  · simp +decide [runCrawl, scrape_website, scrape_subpages, demoEnv,
      demoPage, discover_links, pyDedupFirst, List.foldl]

/-- C10 witness: the demo run's failed fetch was preceded by its insertion
into the visited set and occupies the budget for the rest of the run. -/
theorem c10_visited_before_fetch_witness :
    FetchEv.mk "https://www.srmist.edu.in/a"
        ["https://www.srmist.edu.in/a", "https://www.srmist.edu.in/"] false
        ∈ (runCrawl demoEnv 2 "SRM" "https://www.srmist.edu.in/").2.1 ∧
    "https://www.srmist.edu.in/a" ∈
      (FetchEv.mk "https://www.srmist.edu.in/a"
        ["https://www.srmist.edu.in/a", "https://www.srmist.edu.in/"]
        false).visitedAt ∧
    "https://www.srmist.edu.in/a" ∈
      (runCrawl demoEnv 2 "SRM" "https://www.srmist.edu.in/").2.2.1 := by
  have hev : (runCrawl demoEnv 2 "SRM" "https://www.srmist.edu.in/").2.1 =
      [⟨"https://www.srmist.edu.in/", ["https://www.srmist.edu.in/"], true⟩,
        ⟨"https://www.srmist.edu.in/a",
          ["https://www.srmist.edu.in/a", "https://www.srmist.edu.in/"],
          false⟩] := by
    simp +decide [runCrawl, scrape_website, scrape_subpages, demoEnv,
      demoPage, discover_links, pyDedupFirst, List.foldl]
  have hmem : FetchEv.mk "https://www.srmist.edu.in/a"
      ["https://www.srmist.edu.in/a", "https://www.srmist.edu.in/"] false
        ∈ (runCrawl demoEnv 2 "SRM" "https://www.srmist.edu.in/").2.1 := by
    rw [hev]
    exact List.mem_cons_of_mem _ (List.mem_cons_self _ _)
  have h := c10_visited_before_fetch.1 demoEnv 2 "SRM"
    "https://www.srmist.edu.in/" _ hmem
  exact ⟨hmem, h.1, h.2⟩

/-! ## C3: the FAQ matcher -/

theorem bestMatchLoop_sound (q : String) (kws : List String) :
    ∀ (entries : List FaqEntry) (b : FaqEntry × ℚ),
      ∃ b', bestMatchLoop q kws entries (some b) = some b' ∧
        (b' = b ∨ (b'.1 ∈ entries ∧ b'.2 = calculate_match_score q kws b'.1)) ∧
        b.2 ≤ b'.2 ∧
        ∀ e ∈ entries, calculate_match_score q kws e ≤ b'.2 := by
  intro entries
  induction entries with
  | nil =>
    intro b
    exact ⟨b, rfl, Or.inl rfl, le_refl _, by simp⟩
  | cons e rest ih =>
    intro b
    simp only [bestMatchLoop]
    by_cases hlt : b.2 < calculate_match_score q kws e
    · rw [if_pos hlt]
      obtain ⟨b', hb', hcase, hle, hall⟩ := ih (e, calculate_match_score q kws e)
      refine ⟨b', hb', ?_, le_trans (le_of_lt hlt) hle, ?_⟩
      · rcases hcase with rfl | h
        · exact Or.inr ⟨List.mem_cons_self _ _, rfl⟩
        · exact Or.inr ⟨List.mem_cons_of_mem _ h.1, h.2⟩
      · intro e' he'
        rcases List.mem_cons.mp he' with rfl | h
        · exact hle
        · exact hall e' h
    · rw [if_neg hlt]
      obtain ⟨b', hb', hcase, hle, hall⟩ := ih b
      refine ⟨b', hb', ?_, hle, ?_⟩
      · rcases hcase with h | h
        · exact Or.inl h
        · exact Or.inr ⟨List.mem_cons_of_mem _ h.1, h.2⟩
      · intro e' he'
        rcases List.mem_cons.mp he' with rfl | h
        · exact le_trans (not_lt.mp hlt) hle
        · exact hall e' h

/-- C3 counterexample: for the query `"zzz"` against `demoFaqEntry`
(question `"qqq"`, answer `"zzz"`), the source computes score 1/10 while the
spec's formula gives 1/5 — the answer similarity is halved before the 0.2
weight — and with threshold 3/20 the matcher reports no match even though
the spec-claimed score (1/5) is above the threshold. -/
theorem c3_score_formula_counterexample :
    calculate_match_score "zzz" (extract_keywords "zzz") demoFaqEntry =
      1 / 10 ∧
    specMatchScore "zzz" (extract_keywords "zzz") demoFaqEntry = 1 / 5 ∧
    find_best_match [demoFaqEntry] "zzz" (3 / 20) = none := by
  refine ⟨by decide, by decide, by decide⟩

/-- C3 amended: the blended score is
`0.6 × sim(query, question) + 0.1 × sim(query, answer) + 0.2 × keywordScore`
plus the category bonus, capped at 1.0 (the source halves the answer
similarity before applying its 0.2 weight); and for a query that is
non-empty after stripping, `find_best_match` returns an entry if and only if
the maximal such score over the active entries is at or above the threshold,
and the returned pair consists of an entry attaining that maximal score. -/
theorem c3_faq_scoring_amended :
    (∀ (q : String) (kws : List String) (e : FaqEntry),
      calculate_match_score q kws e = specMatchScoreAmended q kws e) ∧
    ∀ (entries : List FaqEntry) (q : String) (t : ℚ),
      pyStrip q ≠ "" → entries ≠ [] →
      (∀ e s, find_best_match entries q t = some (e, s) →
        t ≤ s ∧ e ∈ entries ∧
        s = calculate_match_score (pyStrip q)
          (extract_keywords (pyStrip q)) e ∧
        ∀ e' ∈ entries,
          calculate_match_score (pyStrip q)
            (extract_keywords (pyStrip q)) e' ≤ s) ∧
      (find_best_match entries q t = none →
        ∀ e' ∈ entries,
          calculate_match_score (pyStrip q)
            (extract_keywords (pyStrip q)) e' < t) := by
  constructor
  · intro q kws e
    rcases e with ⟨eq, ea, et, ec⟩
    cases ec <;>
      simp only [calculate_match_score, specMatchScoreAmended] <;>
      · congr 1
        ring
  · intro entries q t hq hent
    rcases entries with _ | ⟨e, rest⟩
    · exact absurd rfl hent
    have hloop := bestMatchLoop_sound (pyStrip q)
      (extract_keywords (pyStrip q)) rest
      (e, calculate_match_score (pyStrip q) (extract_keywords (pyStrip q)) e)
    obtain ⟨b', hb', hcase, hle, hall⟩ := hloop
    have hmax : ∀ e' ∈ e :: rest,
        calculate_match_score (pyStrip q) (extract_keywords (pyStrip q)) e'
          ≤ b'.2 := by
      intro e' he'
      rcases List.mem_cons.mp he' with rfl | h
      · exact hle
      · exact hall e' h
    have hbmem : b'.1 ∈ e :: rest ∧
        b'.2 = calculate_match_score (pyStrip q)
          (extract_keywords (pyStrip q)) b'.1 := by
      rcases hcase with rfl | h
      · exact ⟨List.mem_cons_self _ _, rfl⟩
      · exact ⟨List.mem_cons_of_mem _ h.1, h.2⟩
    have hfb : find_best_match (e :: rest) q t =
        if t ≤ b'.2 then some b' else none := by
      simp only [find_best_match, if_neg hq, List.isEmpty_cons,
        Bool.false_eq_true, if_false, bestMatchLoop, hb']
    constructor
    · intro e' s hsome
      rw [hfb] at hsome
      by_cases ht : t ≤ b'.2
      · rw [if_pos ht] at hsome
        obtain ⟨rfl, rfl⟩ : e' = b'.1 ∧ s = b'.2 := by
          have := Option.some.inj hsome
          exact ⟨congrArg Prod.fst this.symm, congrArg Prod.snd this.symm⟩
        exact ⟨ht, hbmem.1, hbmem.2, hmax⟩
      · rw [if_neg ht] at hsome
        exact absurd hsome (by simp)
    · intro hnone e' he'
      rw [hfb] at hnone
      by_cases ht : t ≤ b'.2
      · rw [if_pos ht] at hnone
        exact absurd hnone (by simp)
      · exact lt_of_le_of_lt (hmax e' he') (not_le.mp ht)

/-- C3 amended witness: the concrete entry `demoFaqEntry` matched with
threshold 1/20 (its actual score is 1/10). -/
theorem c3_faq_scoring_amended_witness :
    calculate_match_score "zzz" (extract_keywords "zzz") demoFaqEntry =
      specMatchScoreAmended "zzz" (extract_keywords "zzz") demoFaqEntry ∧
    ((1 : ℚ) / 20 ≤ 1 / 10 ∧ demoFaqEntry ∈ [demoFaqEntry] ∧
      (1 : ℚ) / 10 = calculate_match_score (pyStrip "zzz")
        (extract_keywords (pyStrip "zzz")) demoFaqEntry ∧
      ∀ e' ∈ [demoFaqEntry],
        calculate_match_score (pyStrip "zzz")
          (extract_keywords (pyStrip "zzz")) e' ≤ (1 : ℚ) / 10) := by
  refine ⟨c3_faq_scoring_amended.1 "zzz" (extract_keywords "zzz")
    demoFaqEntry, ?_⟩
  exact (c3_faq_scoring_amended.2 [demoFaqEntry] "zzz" (1 / 20) (by decide)
    (by simp)).1 demoFaqEntry (1 / 10) (by decide)

end Mist
